import Mathlib

/-!
Verification of the career-mentor repository's core engines against their
natural-language specification.

The development shallowly embeds the two pure components of the repository:

* the trait assessment engine of `src/psychometric_assessment.py`
  (question catalog, response accumulation, personality profile and the
  three style cascades, plus the JSON persistence round trip), and
* the keyword match engine of `src/cv_analyzer.py`
  (text cleaning, keyword extraction including the capitalized-phrase and
  "years experience" regex scans, match scoring and suggestion generation).

Python dicts are embedded as insertion-ordered association lists, Python
strings as Lean `String`/`List Char`, and the float match score as `ℚ`
(all scores produced by the code are ratios of small integers).
-/

namespace CareerMentor

/-- Keys of the `responses` dictionary.  During an assessment the code stores
answers under the integer question id; after a JSON save/load round trip the
keys come back as JSON object keys, i.e. strings. -/
inductive JKey where
  | int : Int → JKey
  | str : String → JKey
deriving DecidableEq, Repr

/-- One catalog entry of `PsychometricAssessment._load_questions`: the question
id together with the `traits` mapping from choice key to the trait-weight map.
The `question` and `options` display texts play no role in any claim and are
omitted from the embedding. -/
structure Question where
  id : Int
  traits : List (String × List (String × Nat))
deriving DecidableEq, Repr

/-- The fixed 25-question catalog returned by
`PsychometricAssessment._load_questions` (ids and trait weights transcribed
from `src/psychometric_assessment.py`). -/
def questions : List Question := [
  ⟨1, [("a", [("methodical", 2), ("analytical", 1)]),
       ("b", [("collaborative", 2), ("creative", 1)]),
       ("c", [("action-oriented", 2), ("adaptable", 1)]),
       ("d", [("analytical", 2), ("cautious", 1)])]⟩,
  ⟨2, [("a", [("leadership", 2), ("assertive", 1)]),
       ("b", [("supportive", 2), ("harmonious", 1)]),
       ("c", [("reliable", 2), ("focused", 1)]),
       ("d", [("innovative", 2), ("creative", 1)])]⟩,
  ⟨3, [("a", [("structured", 2), ("organized", 1)]),
       ("b", [("dynamic", 2), ("flexible", 1)]),
       ("c", [("collaborative", 2), ("communicative", 1)]),
       ("d", [("independent", 2), ("focused", 1)])]⟩,
  ⟨4, [("a", [("direct", 2), ("resilient", 1)]),
       ("b", [("sensitive", 2), ("empathetic", 1)]),
       ("c", [("detail-oriented", 2), ("practical", 1)]),
       ("d", [("reflective", 2), ("thoughtful", 1)])]⟩,
  ⟨5, [("a", [("concise", 2), ("efficient", 1)]),
       ("b", [("thorough", 2), ("comprehensive", 1)]),
       ("c", [("enthusiastic", 2), ("energetic", 1)]),
       ("d", [("thoughtful", 2), ("measured", 1)])]⟩,
  ⟨6, [("a", [("studious", 2), ("methodical", 1)]),
       ("b", [("hands-on", 2), ("practical", 1)]),
       ("c", [("collaborative", 2), ("guided", 1)]),
       ("d", [("exploratory", 2), ("curious", 1)])]⟩,
  ⟨7, [("a", [("goal-oriented", 2), ("results-driven", 1)]),
       ("b", [("altruistic", 2), ("impactful", 1)]),
       ("c", [("problem-solver", 2), ("analytical", 1)]),
       ("d", [("creative", 2), ("innovative", 1)])]⟩,
  ⟨8, [("a", [("organized", 2), ("systematic", 1)]),
       ("b", [("support-seeking", 2), ("collaborative", 1)]),
       ("c", [("balanced", 2), ("self-aware", 1)]),
       ("d", [("resilient", 2), ("determined", 1)])]⟩,
  ⟨9, [("a", [("intuitive", 2), ("decisive", 1)]),
       ("b", [("informed", 2), ("thorough", 1)]),
       ("c", [("collaborative", 2), ("consensus-driven", 1)]),
       ("d", [("analytical", 2), ("careful", 1)])]⟩,
  ⟨10, [("a", [("ambitious", 2), ("growth-oriented", 1)]),
        ("b", [("specialized", 2), ("expert", 1)]),
        ("c", [("leadership", 2), ("relationship-focused", 1)]),
        ("d", [("exploratory", 2), ("versatile", 1)])]⟩,
  ⟨11, [("a", [("assertive", 2), ("direct", 1)]),
        ("b", [("diplomatic", 2), ("collaborative", 1)]),
        ("c", [("analytical", 2), ("thoughtful", 1)]),
        ("d", [("harmonious", 2), ("peaceful", 1)])]⟩,
  ⟨12, [("a", [("analytical", 2), ("careful", 1)]),
        ("b", [("bold", 2), ("risk-taking", 1)]),
        ("c", [("cautious", 2), ("risk-averse", 1)]),
        ("d", [("adaptable", 2), ("flexible", 1)])]⟩,
  ⟨13, [("a", [("multitasking", 2), ("versatile", 1)]),
        ("b", [("focused", 2), ("dedicated", 1)]),
        ("c", [("balanced", 2), ("sustainable", 1)]),
        ("d", [("deep-work", 2), ("concentrated", 1)])]⟩,
  ⟨14, [("a", [("systematic", 2), ("organized", 1)]),
        ("b", [("resilient", 2), ("forward-looking", 1)]),
        ("c", [("collaborative", 2), ("open", 1)]),
        ("d", [("reflective", 2), ("thoughtful", 1)])]⟩,
  ⟨15, [("a", [("problem-solver", 2), ("analytical", 1)]),
        ("b", [("collaborative", 2), ("energetic", 1)]),
        ("c", [("goal-oriented", 2), ("achievement-driven", 1)]),
        ("d", [("creative", 2), ("exploratory", 1)])]⟩,
  ⟨16, [("a", [("structured", 2), ("guided", 1)]),
        ("b", [("independent", 2), ("self-directed", 1)]),
        ("c", [("collaborative", 2), ("participative", 1)]),
        ("d", [("growth-oriented", 2), ("ambitious", 1)])]⟩,
  ⟨17, [("a", [("reactive", 2), ("responsive", 1)]),
        ("b", [("strategic", 2), ("forward-thinking", 1)]),
        ("c", [("balanced", 2), ("organised", 1)]),
        ("d", [("intuitive", 2), ("passion-driven", 1)])]⟩,
  ⟨18, [("a", [("leadership", 2), ("assertive", 1)]),
        ("b", [("observant", 2), ("selective", 1)]),
        ("c", [("detail-oriented", 2), ("thorough", 1)]),
        ("d", [("creative", 2), ("collaborative", 1)])]⟩,
  ⟨19, [("a", [("confident", 2), ("visible", 1)]),
        ("b", [("modest", 2), ("humble", 1)]),
        ("c", [("achievement-driven", 2), ("results-oriented", 1)]),
        ("d", [("altruistic", 2), ("impact-focused", 1)])]⟩,
  ⟨20, [("a", [("cautious", 2), ("informed", 1)]),
        ("b", [("decisive", 2), ("practical", 1)]),
        ("c", [("collaborative", 2), ("advisory", 1)]),
        ("d", [("intuitive", 2), ("adaptable", 1)])]⟩,
  ⟨21, [("a", [("structured", 2), ("boundary-setting", 1)]),
        ("b", [("flexible", 2), ("self-aware", 1)]),
        ("c", [("intense", 2), ("cyclical", 1)]),
        ("d", [("balanced", 2), ("consistent", 1)])]⟩,
  ⟨22, [("a", [("growth-oriented", 2), ("learning-focused", 1)]),
        ("b", [("values-driven", 2), ("principled", 1)]),
        ("c", [("opportunistic", 2), ("ambitious", 1)]),
        ("d", [("goal-oriented", 2), ("achievement-focused", 1)])]⟩,
  ⟨23, [("a", [("deep", 2), ("selective", 1)]),
        ("b", [("broad", 2), ("exploratory", 1)]),
        ("c", [("specialized", 2), ("focused", 1)]),
        ("d", [("organic", 2), ("natural", 1)])]⟩,
  ⟨24, [("a", [("proactive", 2), ("organised", 1)]),
        ("b", [("reliable", 2), ("consistent", 1)]),
        ("c", [("pressure-driven", 2), ("intense", 1)]),
        ("d", [("methodical", 2), ("systematic", 1)])]⟩,
  ⟨25, [("a", [("growth-oriented", 2), ("adaptable", 1)]),
        ("b", [("impact-focused", 2), ("purpose-driven", 1)]),
        ("c", [("opportunistic", 2), ("ambitious", 1)]),
        ("d", [("achievement-oriented", 2), ("self-improving", 1)])]⟩]

/-- First-match lookup in an association list; the embedding of Python dict
indexing and `dict.get` (a CPython dict never holds duplicate keys, so first
match equals the unique match on well-formed data). -/
def lookupAssoc {α β : Type} [DecidableEq α] : List (α × β) → α → Option β
  | [], _ => none
  | (k, v) :: t, k' => if k = k' then some v else lookupAssoc t k'

/-- The `responses` dictionary of the engine: chosen answer keyed by question
id (integer keys while answering; string keys after a JSON reload). -/
def Responses : Type := List (JKey × String)

/-- Embedding of `trait_scores[trait] = trait_scores.get(trait, 0) + score`:
add to an existing entry in place, or append a fresh key at the end
(CPython dicts preserve insertion order). -/
def tsAdd : List (String × Nat) → String → Nat → List (String × Nat)
  | [], trait, sc => [(trait, sc)]
  | (k, v) :: t, trait, sc =>
    if k = trait then (k, v + sc) :: t else (k, v) :: tsAdd t trait sc

/-- Fold one chosen option's trait-weight map into the accumulator (the inner
`for trait, score in traits.items()` loop). -/
def applyTraits (ts : List (String × Nat)) (tw : List (String × Nat)) :
    List (String × Nat) :=
  tw.foldl (fun acc p => tsAdd acc p.1 p.2) ts

/-- One iteration of the `for question in self.questions` loop of
`_calculate_personality_profile`: look the answer up under the integer
question id, skip falsy answers (`if answer`) and answers that are not a key
of the question's `traits` dict, otherwise accumulate the weights. -/
def scoreStep (r : List (JKey × String)) (ts : List (String × Nat))
    (q : Question) : List (String × Nat) :=
  match lookupAssoc r (JKey.int q.id) with
  | none => ts
  | some ans =>
    if ans = "" then ts
    else
      match lookupAssoc q.traits ans with
      | none => ts
      | some tw => applyTraits ts tw

/-- The `trait_scores` accumulation of `_calculate_personality_profile`. -/
def calcTraitScores (r : List (JKey × String)) : List (String × Nat) :=
  questions.foldl (scoreStep r) []

/-- Embedding of `traits.get(name, 0)`. -/
def tsGet (ts : List (String × Nat)) (k : String) : Nat :=
  (lookupAssoc ts k).getD 0

/-- The `_determine_communication_style` cascade, verbatim from the source. -/
def determineCommunicationStyle (ts : List (String × Nat)) : String :=
  if tsGet ts "concise" > tsGet ts "thorough" then "direct and concise"
  else if tsGet ts "enthusiastic" > 3 then "enthusiastic and engaging"
  else if tsGet ts "thoughtful" > 3 then "thoughtful and measured"
  else "detailed and thorough"

/-- The `_determine_work_style` cascade, verbatim from the source. -/
def determineWorkStyle (ts : List (String × Nat)) : String :=
  if tsGet ts "collaborative" > 5 then "collaborative team player"
  else if tsGet ts "independent" > 3 then "independent and self-directed"
  else if tsGet ts "structured" > 3 then "structured and organized"
  else "flexible and adaptable"

/-- The `_determine_motivation_style` cascade, verbatim from the source. -/
def determineMotivationStyle (ts : List (String × Nat)) : String :=
  if tsGet ts "goal-oriented" > 3 then "results and achievement-driven"
  else if tsGet ts "creative" > 3 then "innovation and creative expression"
  else if tsGet ts "problem-solver" > 3 then "solving complex challenges"
  else "making a positive impact"

/-- Stable descending insertion for one pair: place `x` before the first
element with a strictly smaller score, so earlier elements with an equal
score stay in front. -/
def insertDesc (x : String × Nat) : List (String × Nat) → List (String × Nat)
  | [] => [x]
  | y :: t => if y.2 < x.2 then x :: y :: t else y :: insertDesc x t

/-- Embedding of `sorted(trait_scores.items(), key=lambda x: x[1],
reverse=True)`: a stable sort, descending by score. -/
def sortDescByScore (l : List (String × Nat)) : List (String × Nat) :=
  l.foldl (fun acc x => insertDesc x acc) []

/-- The `personality_profile` dictionary built by
`_calculate_personality_profile`. -/
structure PersonalityProfile where
  raw_scores : List (String × Nat)
  top_traits : List (String × Nat)
  communication_style : String
  work_style : String
  motivation_style : String
deriving DecidableEq, Repr

/-- Embedding of `_calculate_personality_profile` (the unused local
`total_score` of the source is not reproduced). -/
def calcPersonalityProfile (r : List (JKey × String)) : PersonalityProfile :=
  let ts := calcTraitScores r
  { raw_scores := ts
    top_traits := (sortDescByScore ts).take 5
    communication_style := determineCommunicationStyle ts
    work_style := determineWorkStyle ts
    motivation_style := determineMotivationStyle ts }

/-- JSON object keys are strings: `json.dump` in `save_profile` writes an
integer dict key as its decimal string form, and `json.load` in
`load_profile` hands it back as that string. -/
def jsonRoundTripKey : JKey → JKey
  | .int n => .str (toString n)
  | .str s => .str s

/-- The `save_profile` / `load_profile` round trip restricted to the
`responses` entry of the saved blob: values survive unchanged, every integer
key is replaced by its decimal string form. -/
def jsonRoundTripResponses (r : List (JKey × String)) : List (JKey × String) :=
  r.map (fun e => (jsonRoundTripKey e.1, e.2))

/-- Catalog lookup by integer question id (first catalog entry whose id
matches the key). -/
def findQuestion (k : JKey) : Option Question :=
  questions.find? (fun q => JKey.int q.id == k)

/-- An entry of the `responses` dict is effective for profile computation
precisely when its key is the integer id of a catalog question, its value is
truthy (non-empty), and its value is a choice key of that question's
`traits` dict. -/
def validEntry (e : JKey × String) : Bool :=
  match findQuestion e.1 with
  | none => false
  | some q => e.2 != "" && (lookupAssoc q.traits e.2).isSome

/-! ## Keyword match engine (`src/cv_analyzer.py`)

Character classes of the regular expressions used by the analyzer, over the
ASCII range the source's patterns name explicitly (`[A-Z]`, `[a-z]`, `\d`,
`\s`, and the word characters underlying `\b`). -/

/-- Membership in the regex class `[A-Z]`. -/
def isUpperAZ (c : Char) : Bool := 65 ≤ c.toNat && c.toNat ≤ 90

/-- Membership in the regex class `[a-z]`. -/
def isLowerAZ (c : Char) : Bool := 97 ≤ c.toNat && c.toNat ≤ 122

/-- Membership in the regex class `\d` (ASCII digits). -/
def isDigit09 (c : Char) : Bool := 48 ≤ c.toNat && c.toNat ≤ 57

/-- Membership in the regex class `\s` (ASCII whitespace). -/
def isWsChar (c : Char) : Bool :=
  c = ' ' || c = '\t' || c = '\n' || c = '\r' || c = '\x0b' || c = '\x0c'

/-- A word character in the sense of the `\b` boundary assertion. -/
def isWordChar (c : Char) : Bool :=
  isUpperAZ c || isLowerAZ c || isDigit09 c || c = '_'

/-- ASCII lowering of one character, the embedding of `str.lower()` on the
texts the analyzer handles. -/
def toLowerAscii (c : Char) : Char :=
  if isUpperAZ c then Char.ofNat (c.toNat + 32) else c

/-- Length of the longest run of characters satisfying `p` at the head of the
list (the amount a greedy single-class repetition consumes). -/
def countWhile (p : Char → Bool) : List Char → Nat
  | [] => 0
  | c :: t => if p c then countWhile p t + 1 else 0

/-- Embedding of `re.sub(r'\s+', ' ', text)`: every maximal whitespace run
collapses to a single space.  The flag records whether the previous character
belonged to a whitespace run. -/
def collapseWs : Bool → List Char → List Char
  | _, [] => []
  | prevWs, c :: t =>
    if isWsChar c then
      if prevWs then collapseWs true t else ' ' :: collapseWs true t
    else c :: collapseWs false t

/-- Embedding of `CVAnalyzer._clean_text`: collapse whitespace runs, then
lowercase the whole text. -/
def clean_text (t : List Char) : List Char :=
  (collapseWs false t).map toLowerAscii

/-- String-level wrapper of `clean_text`. -/
def cleanString (s : String) : String := String.mk (clean_text s.toList)

/-- Greedy match of one capitalized word `[A-Z][a-z]+` at the head of the
list, returning the number of characters consumed.  Shortening the greedy
`[a-z]+` can never rescue the surrounding pattern (the following character
would still be a word character), so the match length is deterministic. -/
def wordRunLen (cs : List Char) : Option Nat :=
  match cs with
  | [] => none
  | c :: t =>
    if isUpperAZ c then
      if countWhile isLowerAZ t = 0 then none else some (countWhile isLowerAZ t + 1)
    else none

/-- Continuation of a match of `\b[A-Z][a-z]+(?:\s+[A-Z][a-z]+)*\b` after a
complete capitalized word, with an explicit recursion budget (every
recursive step consumes at least two characters, so any `fuel` above the
list length is enough): greedily absorb further `\s+[A-Z][a-z]+` groups and
finish at a position where the trailing `\b` holds.  Returns the number of
extra characters consumed, or `none` when the pattern fails here (only
possible when the very next character is a word character, which defeats the
trailing word boundary). -/
def capTailAux (fuel : Nat) (cs : List Char) : Option Nat :=
  match fuel with
  | 0 => none
  | fuel + 1 =>
    if countWhile isWsChar cs = 0 then
      match cs with
      | [] => some 0
      | c :: _ => if isWordChar c then none else some 0
    else
      match wordRunLen (cs.drop (countWhile isWsChar cs)) with
      | none => some 0
      | some w =>
        match capTailAux fuel ((cs.drop (countWhile isWsChar cs)).drop w) with
        | none => some 0
        | some m => some (countWhile isWsChar cs + w + m)

/-- `capTailAux` at a budget that can never run out. -/
def capTail (cs : List Char) : Option Nat := capTailAux (cs.length + 1) cs

/-- Match of `\b[A-Z][a-z]+(?:\s+[A-Z][a-z]+)*\b` anchored at the current
position; `prevWord` tells whether the preceding character is a word
character (the leading `\b` fails in that case). -/
def capMatchAt (prevWord : Bool) (cs : List Char) : Option Nat :=
  if prevWord then none
  else
    match wordRunLen cs with
    | none => none
    | some w =>
      match capTail (cs.drop w) with
      | none => none
      | some m => some (w + m)

/-- Embedding of `re.findall(r'\b[A-Z][a-z]+(?:\s+[A-Z][a-z]+)*\b', text)`
with an explicit recursion budget (every step consumes at least one
character, so any `fuel` above the list length is enough): scan left to
right, emit each leftmost match and resume after it (every match ends with a
lowercase letter, a word character, so the flag after a match is `true`). -/
def capFindallAux : Nat → Bool → List Char → List (List Char)
  | 0, _, _ => []
  | fuel + 1, prevWord, cs =>
    match capMatchAt prevWord cs, cs with
    | some L, _ => cs.take L :: capFindallAux fuel true (cs.drop L)
    | none, [] => []
    | none, c :: t => capFindallAux fuel (isWordChar c) t

/-- `capFindallAux` at a budget that can never run out. -/
def capFindall (prevWord : Bool) (cs : List Char) : List (List Char) :=
  capFindallAux (cs.length + 1) prevWord cs

/-- Literal-sequence test at the head of a list (the anchored part of a
substring test). -/
def leadsWith : List Char → List Char → Bool
  | [], _ => true
  | _ :: _, [] => false
  | p :: ps, c :: cs => p == c && leadsWith ps cs

/-- Embedding of the Python substring test `pat in text`. -/
def containsSeq (pat : List Char) : List Char → Bool
  | [] => leadsWith pat []
  | c :: t => leadsWith pat (c :: t) || containsSeq pat t

/-- Greedy optional `\+?` after the digit run. -/
def plusOpt (cs : List Char) : Nat × List Char :=
  match cs with
  | '+' :: t => (1, t)
  | _ => (0, cs)

/-- Greedy optional `s?` after the literal `year`. -/
def sOpt (cs : List Char) : Nat × List Char :=
  match cs with
  | 's' :: t => (1, t)
  | _ => (0, cs)

/-- Anchored match of `\d+\+?\s*years?\s*(?:of\s*)?experience` at the head of
the list, returning the length of the match.  Every quantifier in this
pattern is forced: giving characters back from a greedy run always places a
character that the following literal cannot accept, and skipping an optional
piece that is present leads the following literal onto that piece, so the
backtracking regex engine's answer is this deterministic scan. -/
def expMatchAt (cs : List Char) : Option Nat :=
  if countWhile isDigit09 cs = 0 then none
  else
    let d := countWhile isDigit09 cs
    let pr := plusOpt (cs.drop d)
    let w1 := countWhile isWsChar pr.2
    let r3 := pr.2.drop w1
    if leadsWith "year".toList r3 then
      let sr := sOpt (r3.drop 4)
      let w2 := countWhile isWsChar sr.2
      let r6 := sr.2.drop w2
      if leadsWith "of".toList r6 then
        let r7 := r6.drop 2
        let w3 := countWhile isWsChar r7
        if leadsWith "experience".toList (r7.drop w3) then
          some (d + pr.1 + w1 + 4 + sr.1 + w2 + 2 + w3 + 10)
        else none
      else
        if leadsWith "experience".toList r6 then
          some (d + pr.1 + w1 + 4 + sr.1 + w2 + 10)
        else none
    else none

/-- Embedding of `re.findall(r'\d+\+?\s*years?\s*(?:of\s*)?experience',
text_lower)` with an explicit recursion budget (every step consumes at least
one character, so any `fuel` above the list length is enough): emit each
leftmost match and resume after it. -/
def expFindallAux (fuel : Nat) (cs : List Char) : List (List Char) :=
  match fuel with
  | 0 => []
  | fuel + 1 =>
    match cs with
    | [] => []
    | c :: t =>
      match expMatchAt (c :: t) with
      | some L => (c :: t).take L :: expFindallAux fuel ((c :: t).drop L)
      | none => expFindallAux fuel t

/-- `expFindallAux` at a budget that can never run out. -/
def expFindall (cs : List Char) : List (List Char) :=
  expFindallAux (cs.length + 1) cs

/-- The `common_skills` vocabulary of `CVAnalyzer._extract_keywords`,
transcribed from the source. -/
def common_skills : List String := [
  "python", "java", "javascript", "sql", "html", "css", "react", "angular",
  "node.js", "django", "flask", "aws", "azure", "docker", "kubernetes",
  "git", "agile", "scrum", "project management", "leadership", "communication",
  "analytics", "data analysis", "machine learning", "ai", "cloud computing",
  "devops", "ci/cd", "rest api", "microservices", "database", "nosql",
  "excel", "powerpoint", "presentation", "negotiation", "sales", "marketing",
  "finance", "accounting", "design", "ui/ux", "customer service", "teamwork"]

/-- Embedding of `CVAnalyzer._extract_keywords`: vocabulary hits on the
lowercased copy, capitalized runs (longer than 3 characters, lowercased) on
the text as given to the method, and `years experience` phrases on the
lowercased copy; duplicates collapse (`list(set(keywords))` — the set has no
specified order, `List.dedup` is the embedding's representative order). -/
def extract_keywords (text : String) : List String :=
  let cs := text.toList
  let text_lower := cs.map toLowerAscii
  let keywords1 := common_skills.filter (fun s => containsSeq s.toList text_lower)
  let capitalized_terms := capFindall false cs
  let keywords2 := (capitalized_terms.filter (fun t => 3 < t.length)).map
      (fun t => String.mk (t.map toLowerAscii))
  let keywords3 := (expFindall text_lower).map String.mk
  (keywords1 ++ keywords2 ++ keywords3).dedup

/-- The keyword-relevant tail of `CVAnalyzer.load_cv` once file reading has
succeeded (lines 78-79 of the source): the stored `cv_text` is the cleaned
text, and keywords are extracted from that cleaned, already-lowercased
text. -/
def load_cv (raw : String) : String × List String :=
  (cleanString raw, extract_keywords (cleanString raw))

/-- The keyword-relevant tail of `CVAnalyzer.load_job_listing` (lines
110-111 of the source), identical in shape to `load_cv`. -/
def load_job_listing (raw : String) : String × List String :=
  (cleanString raw, extract_keywords (cleanString raw))

/-- The mutable state of a `CVAnalyzer` instance. -/
structure CVAnalyzerState where
  cv_text : String
  job_listing_text : String
  cv_keywords : List String
  job_keywords : List String
  match_score : ℚ
  suggestions : List String
deriving DecidableEq, Repr

/-- Embedding of `', '.join(...)`. -/
def joinComma (l : List String) : String := String.intercalate ", " l

/-- Embedding of `CVAnalyzer._generate_suggestions` (the `matching` argument
is received but never read by the source).  `list(missing)[:5]` enumerates a
Python set in unspecified order; the embedding enumerates the set in
lexicographic order, a choice no spec sentence constrains. -/
def generate_suggestions (score : ℚ) (matching missing : Finset String) :
    List String :=
  let banded : List String :=
    if score < 30 then
      ["Your CV has a low match score. Consider highlighting more relevant skills and experiences."]
    else if score < 50 then
      ["Your CV has a moderate match. There\x27s room for improvement to better align with the job requirements."]
    else if score < 70 then
      ["Your CV has a good match. A few enhancements could make it even stronger."]
    else
      ["Your CV has a strong match with the job listing. Great alignment!"]
  let missingMsg : List String :=
    if missing.Nonempty then
      ["Consider adding or emphasizing these keywords from the job listing: " ++
        joinComma ((missing.sort (· ≤ ·)).take 5)]
    else []
  banded ++ missingMsg ++
    ["Ensure your CV clearly highlights your most relevant experiences at the top.",
     "Use action verbs and quantify achievements where possible (e.g., \x27Increased sales by 25%\x27).",
     "Tailor your CV summary/objective to match the job description\x27s key requirements.",
     "Make sure your CV is well-formatted, easy to read, and free of typos.",
     "Include a skills section that matches the job requirements."]

/-- Round half to even, the rounding mode of Python's builtin `round`. -/
def roundHalfEven (q : ℚ) : ℤ :=
  if q - ⌊q⌋ < 1 / 2 then ⌊q⌋
  else if 1 / 2 < q - ⌊q⌋ then ⌊q⌋ + 1
  else if ⌊q⌋ % 2 = 0 then ⌊q⌋ else ⌊q⌋ + 1

/-- Embedding of `round(x, 2)`. -/
def round2 (q : ℚ) : ℚ := (roundHalfEven (q * 100) : ℚ) / 100

/-- The dictionary returned by a successful `analyze_match` call.  The
source builds `matching_keywords` and `missing_keywords` as Python sets and
returns them as lists in unspecified order; the embedding keeps the sets. -/
structure MatchResult where
  match_score : ℚ
  matching_keywords : Finset String
  missing_keywords : Finset String
  suggestions : List String

/-- Embedding of `CVAnalyzer.analyze_match`: on the guard
`if not self.cv_text or not self.job_listing_text` the method returns the
error dictionary (modelled as `none`) before any assignment; otherwise it
mutates `match_score` and `suggestions` and returns the result dictionary
with the score rounded to two decimals. -/
def analyze_match (s : CVAnalyzerState) : CVAnalyzerState × Option MatchResult :=
  if s.cv_text = "" ∨ s.job_listing_text = "" then (s, none)
  else
    let cv_keyword_set := s.cv_keywords.toFinset
    let job_keyword_set := s.job_keywords.toFinset
    let matching_keywords := cv_keyword_set ∩ job_keyword_set
    let missing_keywords := job_keyword_set \ cv_keyword_set
    let score : ℚ :=
      if 0 < job_keyword_set.card then
        ((matching_keywords.card : ℚ) / (job_keyword_set.card : ℚ)) * 100
      else 0
    let sugg := generate_suggestions score matching_keywords missing_keywords
    ({ s with match_score := score, suggestions := sugg },
     some { match_score := round2 score
            matching_keywords := matching_keywords
            missing_keywords := missing_keywords
            suggestions := sugg })

/-! ## Spec-side definitions used by refinement claims -/

/-- Spec-side trait score lookup of §4.1: the score recorded for a trait,
with missing traits scoring 0. -/
def specTraitScore (ts : List (String × Nat)) (k : String) : Nat :=
  match lookupAssoc ts k with
  | some v => v
  | none => 0

/-- Spec-side communication-style cascade, transcribed from §4.1 step 3 of
the spec. -/
def specCommunicationStyle (ts : List (String × Nat)) : String :=
  if specTraitScore ts "concise" > specTraitScore ts "thorough" then
    "direct and concise"
  else if specTraitScore ts "enthusiastic" > 3 then "enthusiastic and engaging"
  else if specTraitScore ts "thoughtful" > 3 then "thoughtful and measured"
  else "detailed and thorough"

/-- Spec-side work-style cascade, transcribed from §4.1 step 4 of the spec. -/
def specWorkStyle (ts : List (String × Nat)) : String :=
  if specTraitScore ts "collaborative" > 5 then "collaborative team player"
  else if specTraitScore ts "independent" > 3 then "independent and self-directed"
  else if specTraitScore ts "structured" > 3 then "structured and organized"
  else "flexible and adaptable"

/-- Spec-side motivation-style cascade, transcribed from §4.1 step 5 of the
spec. -/
def specMotivationStyle (ts : List (String × Nat)) : String :=
  if specTraitScore ts "goal-oriented" > 3 then "results and achievement-driven"
  else if specTraitScore ts "creative" > 3 then "innovation and creative expression"
  else if specTraitScore ts "problem-solver" > 3 then "solving complex challenges"
  else "making a positive impact"

theorem specTraitScore_eq_tsGet (ts : List (String × Nat)) (k : String) :
    specTraitScore ts k = tsGet ts k := by
  cases h : lookupAssoc ts k <;> simp [specTraitScore, tsGet, h]

/-! ## Claims about the trait assessment engine -/

/-- C1: serializing the engine state and deserializing it does NOT reproduce
an identical `ResponseSet` — `json.dump` turns the integer question-id keys
into strings — and recomputing the profile on the reloaded state no longer
finds any answer, so it does not reproduce the profile either.  Evaluated at
the failing input `responses = {1: "a"}`. -/
theorem saveLoadRoundTripLosesResponses :
    jsonRoundTripResponses [(JKey.int 1, "a")] = [(JKey.str "1", "a")] ∧
    jsonRoundTripResponses [(JKey.int 1, "a")] ≠ [(JKey.int 1, "a")] ∧
    (calcPersonalityProfile [(JKey.int 1, "a")]).raw_scores =
      [("methodical", 2), ("analytical", 1)] ∧
    (calcPersonalityProfile (jsonRoundTripResponses [(JKey.int 1, "a")])).raw_scores
      = [] ∧
    calcPersonalityProfile (jsonRoundTripResponses [(JKey.int 1, "a")]) ≠
      calcPersonalityProfile [(JKey.int 1, "a")] := by
  decide

/-- C2: the claim fails on the code.  The capitalized-phrase scan of
`_extract_keywords` receives the text only after `_clean_text` has already
lowercased it (line 78 before line 79 of `cv_analyzer.py`), so a capitalized
run of the raw input is never extracted.  Evaluated at the failing input
`"Zebra"`: the raw text is one maximal capitalized run of length 5 > 3, yet
the pipeline's keyword set is empty, so `"zebra"` is not included. -/
theorem capitalizedRunsLostByEarlyLowercasing :
    capFindall false "Zebra".toList = ["Zebra".toList] ∧
    3 < "Zebra".toList.length ∧
    (load_cv "Zebra").2 = [] ∧
    "zebra" ∉ (load_cv "Zebra").2 := by
  decide

theorem toNat_ofNat_valid {n : Nat} (h : n < 55296) :
    (Char.ofNat n).toNat = n := by
  unfold Char.ofNat
  rw [dif_pos (Or.inl h)]
  rfl

theorem isUpperAZ_toLowerAscii (c : Char) :
    isUpperAZ (toLowerAscii c) = false := by
  unfold toLowerAscii
  by_cases h : isUpperAZ c
  · rw [if_pos h]
    unfold isUpperAZ at h ⊢
    simp only [Bool.and_eq_true, decide_eq_true_eq] at h
    have hv : (Char.ofNat (c.toNat + 32)).toNat = c.toNat + 32 :=
      toNat_ofNat_valid (by omega)
    simp only [hv, Bool.and_eq_false_iff, decide_eq_false_iff_not]
    omega
  · rw [if_neg h]
    simpa using h

theorem clean_text_noUpper (t : List Char) :
    ∀ c ∈ clean_text t, isUpperAZ c = false := by
  intro c hc
  unfold clean_text at hc
  rw [List.mem_map] at hc
  obtain ⟨x, _, rfl⟩ := hc
  exact isUpperAZ_toLowerAscii x

theorem capMatchAt_none_of_noUpper {b : Bool} {cs : List Char}
    (h : ∀ c ∈ cs, isUpperAZ c = false) : capMatchAt b cs = none := by
  by_cases hb : b
  · simp [capMatchAt, hb]
  · have hw : wordRunLen cs = none := by
      cases cs with
      | nil => rfl
      | cons c t => simp [wordRunLen, h c (List.mem_cons_self c t)]
    simp [capMatchAt, hb, hw]

theorem capFindallAux_of_noUpper :
    ∀ (fuel : Nat) (cs : List Char), (∀ c ∈ cs, isUpperAZ c = false) →
      ∀ b, capFindallAux fuel b cs = [] := by
  intro fuel
  induction fuel with
  | zero => intro cs h b; rfl
  | succ n ih =>
    intro cs h b
    have hm := capMatchAt_none_of_noUpper (b := b) h
    cases cs with
    | nil => simp [capFindallAux, hm]
    | cons c t =>
      simp only [capFindallAux, hm]
      exact ih t (fun x hx => h x (List.mem_cons_of_mem c hx)) (isWordChar c)

/-- Helper for the C2 divergence: a text without characters in `[A-Z]` has no
capitalized-word match anywhere. -/
theorem capFindall_of_noUpper (cs : List Char)
    (h : ∀ c ∈ cs, isUpperAZ c = false) (b : Bool) : capFindall b cs = [] :=
  capFindallAux_of_noUpper (cs.length + 1) cs h b

/-- Helper for the C2 divergence: through the `load_cv` / `load_job_listing`
pipeline the capitalized-phrase rule contributes nothing on any raw input,
because the text reaching `_extract_keywords` is already lowercased. -/
theorem capFindall_after_clean (raw : String) :
    capFindall false (cleanString raw).toList = [] :=
  capFindall_of_noUpper _ (clean_text_noUpper raw.toList) false

/-- C8: computing the profile over an empty `ResponseSet` yields the empty
(hence all-zero) raw score map, an empty `top_traits` sequence, and the
default fallback label of each style cascade. -/
theorem emptyResponsesDefaultProfile :
    calcPersonalityProfile [] =
      { raw_scores := []
        top_traits := []
        communication_style := "detailed and thorough"
        work_style := "flexible and adaptable"
        motivation_style := "making a positive impact" } ∧
    ∀ t, tsGet (calcTraitScores []) t = 0 := by
  constructor
  · decide
  · intro t; rfl

/-- Witness for C8 at the concrete trait `"analytical"`. -/
theorem emptyResponsesDefaultProfile_witness :
    tsGet (calcTraitScores []) "analytical" = 0 :=
  emptyResponsesDefaultProfile.2 "analytical"

/-- C3: the three style labels computed by the engine follow exactly the
literal threshold cascades of the spec (with absent traits scoring 0), for
every trait score map. -/
theorem styleCascadesMatchSpec (ts : List (String × Nat)) :
    determineCommunicationStyle ts = specCommunicationStyle ts ∧
    determineWorkStyle ts = specWorkStyle ts ∧
    determineMotivationStyle ts = specMotivationStyle ts := by
  refine ⟨?_, ?_, ?_⟩ <;>
    simp only [determineCommunicationStyle, specCommunicationStyle,
      determineWorkStyle, specWorkStyle, determineMotivationStyle,
      specMotivationStyle, specTraitScore_eq_tsGet]

/-- Witness for C3 at a concrete trait score map. -/
theorem styleCascadesMatchSpec_witness :
    determineCommunicationStyle [("concise", 4)] =
      specCommunicationStyle [("concise", 4)] :=
  (styleCascadesMatchSpec [("concise", 4)]).1

/-! ## Claims about the keyword match engine -/

/-- C7: `analyze_match` reports the missing-input failure exactly when the
CV text or the job text is the empty string, and on that failure the engine
state is returned unchanged (the guard precedes every assignment). -/
theorem analyzeMissingInputIff (s : CVAnalyzerState) :
    ((analyze_match s).2 = none ↔ s.cv_text = "" ∨ s.job_listing_text = "") ∧
    ((analyze_match s).2 = none → (analyze_match s).1 = s) := by
  by_cases h : s.cv_text = "" ∨ s.job_listing_text = ""
  · constructor
    · simp [analyze_match, h]
    · intro _
      simp [analyze_match, h]
  · constructor
    · simp [analyze_match, h]
    · intro hn
      exfalso
      revert hn
      simp [analyze_match, h]

/-- Witness for C7: the analyzer with an unset (empty) CV text fails and
keeps its state. -/
theorem analyzeMissingInputIff_witness :
    (analyze_match ⟨"", "job text", [], [], 0, []⟩).2 = none ∧
    (analyze_match ⟨"", "job text", [], [], 0, []⟩).1 =
      ⟨"", "job text", [], [], 0, []⟩ :=
  ⟨(analyzeMissingInputIff _).1.mpr (Or.inl rfl),
   (analyzeMissingInputIff _).2
     ((analyzeMissingInputIff _).1.mpr (Or.inl rfl))⟩

/-- C9: the score-banded message is selected with strict upper bounds
`<30`, `<50`, `<70`: a score below 30 yields the low-match message, a score
in `[30, 50)` (in particular exactly 30) the moderate-match message,
`[50, 70)` the good-match message, and `70` or above the strong-match
message; the banded message is always the first suggestion. -/
theorem scoreBandSelection (score : ℚ) (matching missing : Finset String) :
    (score < 30 → (generate_suggestions score matching missing).head? =
      some "Your CV has a low match score. Consider highlighting more relevant skills and experiences.") ∧
    (30 ≤ score → score < 50 →
      (generate_suggestions score matching missing).head? =
      some "Your CV has a moderate match. There\x27s room for improvement to better align with the job requirements.") ∧
    (50 ≤ score → score < 70 →
      (generate_suggestions score matching missing).head? =
      some "Your CV has a good match. A few enhancements could make it even stronger.") ∧
    (70 ≤ score →
      (generate_suggestions score matching missing).head? =
      some "Your CV has a strong match with the job listing. Great alignment!") := by
  refine ⟨fun h => ?_, fun h1 h2 => ?_, fun h1 h2 => ?_, fun h1 => ?_⟩
  · simp [generate_suggestions, h]
  · simp [generate_suggestions, h2, not_lt.mpr h1]
  · have l30 : ¬ score < 30 := not_lt.mpr (le_trans (by norm_num) h1)
    have l50 : ¬ score < 50 := not_lt.mpr h1
    simp [generate_suggestions, l30, l50, h2]
  · have l30 : ¬ score < 30 := not_lt.mpr (le_trans (by norm_num) h1)
    have l50 : ¬ score < 50 := not_lt.mpr (le_trans (by norm_num) h1)
    have l70 : ¬ score < 70 := not_lt.mpr h1
    simp [generate_suggestions, l30, l50, l70]

/-- Witness for C9 at the boundary score 30, which falls in the moderate
band. -/
theorem scoreBandSelection_witness :
    (30 : ℚ) ≤ 30 ∧ (30 : ℚ) < 50 ∧
    (generate_suggestions 30 ∅ ∅).head? =
      some "Your CV has a moderate match. There\x27s room for improvement to better align with the job requirements." :=
  ⟨le_refl _, by norm_num,
   (scoreBandSelection 30 ∅ ∅).2.1 (le_refl _) (by norm_num)⟩

/-- C4 counterexample: in a run with an empty missing set the suggestion
list holds the banded message followed by five further strings, so exactly
five — not six — fixed literal strings are appended after the banded and
optional missing-keyword messages. -/
theorem fixedSuggestionTailCounterexample :
    (generate_suggestions 0 ∅ ∅).length = 6 ∧
    ((generate_suggestions 0 ∅ ∅).drop 1).length = 5 ∧
    ((generate_suggestions 0 ∅ ∅).drop 1).length ≠ 6 := by
  decide

/-- The five fixed literal generic suggestions appended verbatim at the end
of every suggestion list (spec §4.2 names four of them plus one on the
skills section). -/
def genericSuggestions : List String :=
  ["Ensure your CV clearly highlights your most relevant experiences at the top.",
   "Use action verbs and quantify achievements where possible (e.g., \x27Increased sales by 25%\x27).",
   "Tailor your CV summary/objective to match the job description\x27s key requirements.",
   "Make sure your CV is well-formatted, easy to read, and free of typos.",
   "Include a skills section that matches the job requirements."]

/-- Spec-side score-banded message of §4.2 step 1. -/
def bandMessage (score : ℚ) : String :=
  if score < 30 then
    "Your CV has a low match score. Consider highlighting more relevant skills and experiences."
  else if score < 50 then
    "Your CV has a moderate match. There\x27s room for improvement to better align with the job requirements."
  else if score < 70 then
    "Your CV has a good match. A few enhancements could make it even stronger."
  else "Your CV has a strong match with the job listing. Great alignment!"

/-- Spec-side optional missing-keyword message of §4.2 step 2. -/
def missingKeywordMessages (missing : Finset String) : List String :=
  if missing.Nonempty then
    ["Consider adding or emphasizing these keywords from the job listing: " ++
      joinComma ((missing.sort (· ≤ ·)).take 5)]
  else []

/-- C4 (amended): every suggestion list is the banded message, then the
optional missing-keyword message, then exactly the five fixed literal
generic suggestions appended verbatim. -/
theorem suggestionsEndWithFiveFixed (score : ℚ)
    (matching missing : Finset String) :
    generate_suggestions score matching missing =
      bandMessage score :: (missingKeywordMessages missing ++ genericSuggestions) := by
  simp only [generate_suggestions, bandMessage, missingKeywordMessages,
    genericSuggestions]
  split_ifs <;> simp

/-- Witness for the amended C4 at a concrete run. -/
theorem suggestionsEndWithFiveFixed_witness :
    generate_suggestions 0 ∅ ∅ =
      bandMessage 0 :: (missingKeywordMessages ∅ ++ genericSuggestions) :=
  suggestionsEndWithFiveFixed 0 ∅ ∅

/-- C6: on a successful analysis the missing keywords are exactly the job
keyword set minus the CV keyword set, and matching and missing keywords
together cover the whole job keyword set. -/
theorem missingKeywordsExact (s : CVAnalyzerState)
    (h1 : ¬ s.cv_text = "") (h2 : ¬ s.job_listing_text = "") :
    ∃ res, (analyze_match s).2 = some res ∧
      res.missing_keywords = s.job_keywords.toFinset \ s.cv_keywords.toFinset ∧
      res.matching_keywords ∪ res.missing_keywords = s.job_keywords.toFinset := by
  have hcond : ¬ (s.cv_text = "" ∨ s.job_listing_text = "") := by tauto
  unfold analyze_match
  rw [if_neg hcond]
  refine ⟨_, rfl, rfl, ?_⟩
  ext x
  simp only [Finset.mem_union, Finset.mem_inter, Finset.mem_sdiff]
  tauto

/-- Witness for C6 at a concrete loaded state. -/
theorem missingKeywordsExact_witness :
    ∃ res,
      (analyze_match ⟨"cv", "job", ["python"], ["python", "aws"], 0, []⟩).2 =
        some res ∧
      res.missing_keywords =
        (["python", "aws"] : List String).toFinset \
          (["python"] : List String).toFinset ∧
      res.matching_keywords ∪ res.missing_keywords =
        (["python", "aws"] : List String).toFinset :=
  missingKeywordsExact ⟨"cv", "job", ["python"], ["python", "aws"], 0, []⟩
    (by decide) (by decide)

/-- Spec-side match score formula of §4.2: `100 * |matching| / |job set|`
when the job keyword set is non-empty, else 0. -/
def matchScoreFormula (cvk jobk : List String) : ℚ :=
  if 0 < jobk.toFinset.card then
    100 * ((cvk.toFinset ∩ jobk.toFinset).card : ℚ) / (jobk.toFinset.card : ℚ)
  else 0

/-- C5: on a successful analysis the stored match score equals the spec
formula (with the empty job keyword set giving score 0 rather than a
division error), the reported score is its two-decimal rounding, and the
score always lies in `[0, 100]`. -/
theorem matchScoreSafeBounded (s : CVAnalyzerState)
    (h1 : ¬ s.cv_text = "") (h2 : ¬ s.job_listing_text = "") :
    (analyze_match s).1.match_score = matchScoreFormula s.cv_keywords s.job_keywords ∧
    (analyze_match s).2.map MatchResult.match_score =
      some (round2 (matchScoreFormula s.cv_keywords s.job_keywords)) ∧
    0 ≤ (analyze_match s).1.match_score ∧
    (analyze_match s).1.match_score ≤ 100 := by
  have hcond : ¬ (s.cv_text = "" ∨ s.job_listing_text = "") := by tauto
  have hstate : (analyze_match s).1.match_score =
      matchScoreFormula s.cv_keywords s.job_keywords := by
    unfold analyze_match matchScoreFormula
    rw [if_neg hcond]
    by_cases hc : 0 < s.job_keywords.toFinset.card
    · simp only [hc, if_true]
      ring
    · simp only [hc, if_false]
  have hmap : (analyze_match s).2.map MatchResult.match_score =
      some (round2 ((analyze_match s).1.match_score)) := by
    unfold analyze_match
    rw [if_neg hcond]
    rfl
  refine ⟨hstate, ?_, ?_, ?_⟩
  · rw [hmap, hstate]
  · rw [hstate]
    unfold matchScoreFormula
    split_ifs with hc
    · positivity
    · exact le_refl 0
  · rw [hstate]
    unfold matchScoreFormula
    split_ifs with hc
    · have hsub : (s.cv_keywords.toFinset ∩ s.job_keywords.toFinset).card ≤
          s.job_keywords.toFinset.card :=
        Finset.card_le_card Finset.inter_subset_right
      have hj : (0 : ℚ) < (s.job_keywords.toFinset.card : ℚ) := by
        exact_mod_cast hc
      rw [div_le_iff₀ hj]
      have h' : ((s.cv_keywords.toFinset ∩ s.job_keywords.toFinset).card : ℚ) ≤
          (s.job_keywords.toFinset.card : ℚ) := by exact_mod_cast hsub
      nlinarith
    · norm_num

/-- Witness for C5 at a concrete loaded state. -/
theorem matchScoreSafeBounded_witness :
    (analyze_match ⟨"cv", "job", ["python"], ["python", "aws"], 0, []⟩).1.match_score =
      matchScoreFormula ["python"] ["python", "aws"] ∧
    (analyze_match ⟨"cv", "job", ["python"], ["python", "aws"], 0, []⟩).2.map
        MatchResult.match_score =
      some (round2 (matchScoreFormula ["python"] ["python", "aws"])) ∧
    0 ≤ (analyze_match ⟨"cv", "job", ["python"], ["python", "aws"], 0, []⟩).1.match_score ∧
    (analyze_match ⟨"cv", "job", ["python"], ["python", "aws"], 0, []⟩).1.match_score ≤ 100 :=
  matchScoreSafeBounded ⟨"cv", "job", ["python"], ["python", "aws"], 0, []⟩
    (by decide) (by decide)

/-! ## Robustness of profile computation (C10) -/

theorem lookupAssoc_eq_none {α β : Type} [DecidableEq α] {l : List (α × β)}
    {k : α} (h : k ∉ l.map Prod.fst) : lookupAssoc l k = none := by
  induction l with
  | nil => rfl
  | cons e t ih =>
    obtain ⟨k', v⟩ := e
    simp only [List.map_cons, List.mem_cons, not_or] at h
    obtain ⟨h1, h2⟩ := h
    simp only [lookupAssoc]
    rw [if_neg (fun hh => h1 hh.symm)]
    exact ih h2

theorem mem_map_fst_of_mem_filter {α β : Type} {p : α × β → Bool}
    {l : List (α × β)} {x : α} (h : x ∈ (l.filter p).map Prod.fst) :
    x ∈ l.map Prod.fst := by
  simp only [List.mem_map] at h ⊢
  obtain ⟨e, he, rfl⟩ := h
  exact ⟨e, List.mem_of_mem_filter he, rfl⟩

theorem lookupAssoc_filter {α β : Type} [DecidableEq α] (p : α × β → Bool)
    {l : List (α × β)} (hnd : (l.map Prod.fst).Nodup) (k : α) :
    lookupAssoc (l.filter p) k =
      (lookupAssoc l k).bind (fun v => if p (k, v) then some v else none) := by
  induction l with
  | nil => rfl
  | cons e t ih =>
    obtain ⟨k', v⟩ := e
    simp only [List.map_cons, List.nodup_cons] at hnd
    obtain ⟨hk', hnd'⟩ := hnd
    by_cases hkk : k' = k
    · subst hkk
      have hnone : lookupAssoc (t.filter p) k' = none :=
        lookupAssoc_eq_none (fun hmem => hk' (mem_map_fst_of_mem_filter hmem))
      by_cases hp : p (k', v)
      · simp [List.filter, hp, lookupAssoc]
      · simp [List.filter, hp, lookupAssoc, hnone]
    · by_cases hp : p (k', v)
      · simp [List.filter, hp, lookupAssoc, if_neg hkk, ih hnd']
      · simp [List.filter, hp, lookupAssoc, if_neg hkk, ih hnd']

theorem foldlCongr {α β : Type} {f g : α → β → α} :
    ∀ (l : List β) (a : α), (∀ b ∈ l, ∀ x, f x b = g x b) →
      l.foldl f a = l.foldl g a := by
  intro l
  induction l with
  | nil => intro a _; rfl
  | cons b t ih =>
    intro a h
    simp only [List.foldl_cons]
    rw [h b (List.mem_cons_self b t) a]
    exact ih _ (fun x hx y => h x (List.mem_cons_of_mem b hx) y)

theorem findQuestion_self : ∀ q ∈ questions, findQuestion (JKey.int q.id) = some q := by
  decide

theorem scoreStep_filter (r : List (JKey × String))
    (hnd : (r.map Prod.fst).Nodup) {q : Question}
    (hq : findQuestion (JKey.int q.id) = some q) (ts : List (String × Nat)) :
    scoreStep (r.filter validEntry) ts q = scoreStep r ts q := by
  unfold scoreStep
  rw [lookupAssoc_filter validEntry hnd (JKey.int q.id)]
  cases hl : lookupAssoc r (JKey.int q.id) with
  | none => rfl
  | some a =>
    have hv : validEntry (JKey.int q.id, a) =
        (a != "" && (lookupAssoc q.traits a).isSome) := by
      unfold validEntry
      rw [hq]
    show (match (if validEntry (JKey.int q.id, a) then some a else none) with
          | none => ts
          | some ans =>
            if ans = "" then ts
            else
              match lookupAssoc q.traits ans with
              | none => ts
              | some tw => applyTraits ts tw) = _
    rw [hv]
    by_cases ha : a = ""
    · subst ha
      simp
    · have hb : (a != "") = true := by simp [ha]
      cases htr : lookupAssoc q.traits a with
      | none => simp [hb, htr, ha]
      | some tw => simp [hb, htr, ha]

/-- C10: profile accumulation is total and silently skips every ineffective
`responses` entry: over any response mapping (association list with distinct
keys, the image of a Python dict), removing the entries whose key is not a
catalog question id, whose value is falsy, or whose value is not a choice
key of that question's trait mapping leaves the computed trait scores
unchanged. -/
theorem invalidEntriesIgnored (r : List (JKey × String))
    (h : (r.map Prod.fst).Nodup) :
    calcTraitScores (r.filter validEntry) = calcTraitScores r := by
  unfold calcTraitScores
  exact foldlCongr questions []
    (fun q hq ts => scoreStep_filter r h (findQuestion_self q hq) ts)

/-- Witness for C10 at a response map holding one effective entry and four
ineffective ones: an unknown question id, a falsy (empty) answer, an answer
that is not a choice key, and a string question id. -/
theorem invalidEntriesIgnored_witness :
    (([(JKey.int 1, "a"), (JKey.int 99, "b"), (JKey.int 2, ""),
       (JKey.int 3, "z"), (JKey.str "4", "a")].map Prod.fst).Nodup) ∧
    calcTraitScores
        ([(JKey.int 1, "a"), (JKey.int 99, "b"), (JKey.int 2, ""),
          (JKey.int 3, "z"), (JKey.str "4", "a")].filter validEntry) =
      calcTraitScores
        [(JKey.int 1, "a"), (JKey.int 99, "b"), (JKey.int 2, ""),
         (JKey.int 3, "z"), (JKey.str "4", "a")] :=
  ⟨by decide,
   invalidEntriesIgnored
     [(JKey.int 1, "a"), (JKey.int 99, "b"), (JKey.int 2, ""),
      (JKey.int 3, "z"), (JKey.str "4", "a")] (by decide)⟩

end CareerMentor
